import Mathlib

/-!
# Verification of `asystent_konkursow` (contest-assistant) against its specification

Shallow embedding of the repository's three modules:

* `ai_processor.py` — `analyze_post`: sends a post's text to the Gemini model and
  parses the loosely structured reply into a fixed three-field record, with a
  tagged error for each failure mode.
* `scraper.py` — `find_contests`: drives a browser session (navigate, pause,
  scroll, scrape by CSS selector) and extracts `{content, link}` pairs from the
  matched post elements, skipping bad elements and absorbing session failures.
* `app.py` — the Streamlit UI; only the result-table column layout and the
  save-button handler are modelled.

External services (the Gemini API and the browser) are modelled as explicit
behaviour values supplied to the embedded functions, exactly in the places the
Python code calls out to them; Python exceptions raised by those services are
modelled as `Except`/`Option` error outcomes, and every `try/except` of the
source becomes an explicit match on those outcomes.
-/

set_option autoImplicit false

namespace AsystentKonkursow

/-! ## JSON values and a model of Python's `json.loads`

`ai_processor.py` calls `json.loads` on (substrings of) the model's response.
We model JSON values and a total, executable parser for the JSON fragment this
program can meet: `null`, booleans, integer numbers, strings with the common
single-character escapes, arrays and objects.  (Floating-point literals and
`\u` escapes are outside the model; the parser rejects them, which only
narrows the hypotheses "this text is valid JSON" used below.)  As in Python,
`json.loads` succeeds only when the whole input, up to surrounding whitespace,
is a single JSON value; a duplicate object key is resolved to its last
occurrence, as a Python `dict` built by `json.loads` would. -/

inductive Json where
  | null : Json
  | bool (b : Bool) : Json
  | num (n : Int) : Json
  | str (s : String) : Json
  | arr (elems : List Json) : Json
  | obj (members : List (String × Json)) : Json

/-- The character `{` (written via its code point to keep string/char literals
plain ASCII-safe throughout the file). -/
def lbrace : Char := Char.ofNat 123

/-- The character `}`. -/
def rbrace : Char := Char.ofNat 125

/-- JSON insignificant whitespace. -/
def isJsonWs (c : Char) : Bool :=
  c = ' ' || c = '\t' || c = '\n' || c = '\r'

/-- Drop leading JSON whitespace. -/
def skipWs : List Char → List Char
  | [] => []
  | c :: cs => if isJsonWs c then skipWs cs else c :: cs

/-- Parse the body of a JSON string after the opening quote, handling the
single-character escapes `\" \\ \/ \b \f \n \r \t`; returns the decoded
string and the input remaining after the closing quote. -/
def parseStringBody : List Char → Option (String × List Char)
  | [] => none
  | c :: cs =>
    if c = '"' then some ("", cs)
    else if c = '\\' then
      match cs with
      | [] => none
      | e :: cs' =>
        let dec : Option Char :=
          if e = '"' then some '"'
          else if e = '\\' then some '\\'
          else if e = '/' then some '/'
          else if e = 'b' then some (Char.ofNat 8)
          else if e = 'f' then some (Char.ofNat 12)
          else if e = 'n' then some '\n'
          else if e = 'r' then some '\r'
          else if e = 't' then some '\t'
          else none
        match dec with
        | none => none
        | some d =>
          match parseStringBody cs' with
          | none => none
          | some (s, rest) => some (⟨d :: s.toList⟩, rest)
    else
      match parseStringBody cs with
      | none => none
      | some (s, rest) => some (⟨c :: s.toList⟩, rest)

/-- Parse a run of decimal digits into a natural number (accumulator style);
fails on an empty run. -/
def parseDigits (acc : Nat) (seen : Bool) : List Char → Option (Nat × List Char)
  | [] => if seen then some (acc, []) else none
  | c :: cs =>
    if c.isDigit then parseDigits (acc * 10 + (c.toNat - 48)) true cs
    else if seen then some (acc, c :: cs) else none

/-- Parse an integer JSON number (optional leading `-`); rejects a following
`.`, `e` or `E` (floating-point literals are outside the model). -/
def parseIntNum (input : List Char) : Option (Int × List Char) :=
  let (neg, rest) :=
    match input with
    | '-' :: cs => (true, cs)
    | cs => (false, cs)
  match parseDigits 0 false rest with
  | none => none
  | some (n, rest') =>
    match rest' with
    | c :: _ =>
      if c = '.' || c = 'e' || c = 'E' then none
      else some (if neg then -(n : Int) else (n : Int), rest')
    | [] => some (if neg then -(n : Int) else (n : Int), [])

mutual

/-- Parse one JSON value from the front of the input (fuel-bounded). -/
def parseValue : Nat → List Char → Option (Json × List Char)
  | 0, _ => none
  | _ + 1, [] => none
  | fuel + 1, c :: cs =>
    if c = '"' then
      match parseStringBody cs with
      | none => none
      | some (s, rest) => some (.str s, rest)
    else if c = lbrace then
      match skipWs cs with
      | d :: ds =>
        if d = rbrace then some (.obj [], ds)
        else
          match parseMembers fuel (d :: ds) with
          | none => none
          | some (ms, rest) => some (.obj ms, rest)
      | [] => none
    else if c = '[' then
      match skipWs cs with
      | d :: ds =>
        if d = ']' then some (.arr [], ds)
        else
          match parseElems fuel (d :: ds) with
          | none => none
          | some (xs, rest) => some (.arr xs, rest)
      | [] => none
    else if c = 't' then
      match cs with
      | 'r' :: 'u' :: 'e' :: rest => some (.bool true, rest)
      | _ => none
    else if c = 'f' then
      match cs with
      | 'a' :: 'l' :: 's' :: 'e' :: rest => some (.bool false, rest)
      | _ => none
    else if c = 'n' then
      match cs with
      | 'u' :: 'l' :: 'l' :: rest => some (.null, rest)
      | _ => none
    else
      match parseIntNum (c :: cs) with
      | none => none
      | some (n, rest) => some (.num n, rest)

/-- Parse a non-empty comma-separated list of array elements (fuel-bounded);
the input starts at the first element, and parsing ends after `]`. -/
def parseElems : Nat → List Char → Option (List Json × List Char)
  | 0, _ => none
  | fuel + 1, input =>
    match parseValue fuel (skipWs input) with
    | none => none
    | some (v, rest) =>
      match skipWs rest with
      | ',' :: rest' =>
        match parseElems fuel rest' with
        | none => none
        | some (vs, rest'') => some (v :: vs, rest'')
      | ']' :: rest' => some ([v], rest')
      | _ => none

/-- Parse a non-empty comma-separated list of object members (fuel-bounded);
the input starts at the first `"key"`, and parsing ends after the closing
brace. -/
def parseMembers : Nat → List Char → Option (List (String × Json) × List Char)
  | 0, _ => none
  | fuel + 1, input =>
    match skipWs input with
    | '"' :: cs =>
      match parseStringBody cs with
      | none => none
      | some (k, rest) =>
        match skipWs rest with
        | ':' :: rest' =>
          match parseValue fuel (skipWs rest') with
          | none => none
          | some (v, rest'') =>
            match skipWs rest'' with
            | ',' :: rest3 =>
              match parseMembers fuel rest3 with
              | none => none
              | some (ms, rest4) => some ((k, v) :: ms, rest4)
            | d :: rest3 =>
              if d = rbrace then some ([(k, v)], rest3) else none
            | [] => none
        | _ => none
    | _ => none

end

/-- Model of Python's `json.loads`: the whole input, up to surrounding
whitespace, must be one JSON value; `none` models `json.JSONDecodeError`. -/
def json_loads (s : String) : Option Json :=
  match parseValue (s.length + 1) (skipWs s.toList) with
  | none => none
  | some (v, rest) =>
    match skipWs rest with
    | [] => some v
    | _ :: _ => none

/-- `dict.get(k)` on the dictionary `json.loads` builds from an object's
members: the value of the last occurrence of `k`, and Python `None`
(modelled `Json.null`) when `k` is absent. -/
def dictGet (members : List (String × Json)) (k : String) : Option Json :=
  match members with
  | [] => none
  | (k', v) :: rest =>
    match dictGet rest k with
    | some w => some w
    | none => if k' = k then some v else none

/-- `parsed_response.get(key)` with Python's `None` default. -/
def dictGetD (members : List (String × Json)) (k : String) : Json :=
  (dictGet members k).getD .null

/-! ## `ai_processor.analyze_post`

The Gemini service is modelled by the `Gemini` behaviour value: whether
`genai.configure` raises, and what the model interaction yields.  All the ways
the response can go wrong at the transport level — `GenerativeModel(...)` or
`generate_content(...)` raising, or `response.text` raising / not being a
string — end in the source's outer `except Exception` branch (the inner
`except (ValueError, AttributeError)` handler re-reads `response.text` in its
log call and re-raises, landing in the same outer branch), so they are
collapsed into `ModelBehavior.raises`.  A delivered textual reply is
`ModelBehavior.returns`. -/

/-- Python `str.index(c)`: position of the first occurrence, counting from
`start`. -/
def charIdxFrom (c : Char) : Nat → List Char → Option Nat
  | _, [] => none
  | i, d :: ds => if d = c then some i else charIdxFrom c (i + 1) ds

/-- Python `str.index(c)`: `none` models the `ValueError` raised when `c` does
not occur. -/
def charIndex (t : String) (c : Char) : Option Nat :=
  charIdxFrom c 0 t.toList

/-- Python `str.rindex(c)`: position of the last occurrence; `none` models the
`ValueError` raised when `c` does not occur. -/
def charRindex (t : String) (c : Char) : Option Nat :=
  match charIdxFrom c 0 t.toList.reverse with
  | none => none
  | some i => some (t.length - 1 - i)

/-- Python `t[a:b]` for `0 ≤ a` and `b` clipped to the length; empty when
`b ≤ a`, exactly as in Python. -/
def pySlice (t : String) (a b : Nat) : String :=
  ⟨(t.toList.drop a).take (b - a)⟩

/-- The JSON-extraction heuristic of `analyze_post` (source lines 69–80):
decode the substring from the first `{` to the last `}` inclusive; when either
index is missing (`ValueError`) or that substring fails to decode
(`json.JSONDecodeError`, a `ValueError` caught by the same inner handler),
fall back to decoding the whole response text.  `none` models the fallback
itself raising `json.JSONDecodeError`. -/
def extractJson (t : String) : Option Json :=
  match charIndex t lbrace, charRindex t rbrace with
  | some i, some j =>
    match json_loads (pySlice t i (j + 1)) with
    | some v => some v
    | none => json_loads t
  | _, _ => json_loads t

/-- The dictionary `analyze_post` returns: always exactly the three contest
fields, plus the `error` entry present only on the failure paths. -/
structure AnalysisResult where
  zadanie_konkursowe : Json
  miejsce_zgloszenia : Json
  termin_zakonczenia : Json
  error : Option String

/-- An error-path result: all three fields set to the same marker string and a
tagged `error` entry. -/
def errResult (field tag : String) : AnalysisResult :=
  ⟨.str field, .str field, .str field, some tag⟩

/-- Outcome of the model interaction (see module comment above). -/
inductive ModelBehavior where
  | raises (msg : String)
  | returns (text : String)

/-- Behaviour of the Gemini service for one `analyze_post` call. -/
structure Gemini where
  configure_error : Option String
  behavior : ModelBehavior

/-- External calls `analyze_post` makes, in order (used to state that the
missing-credential path never touches the service). -/
inductive ExtCall where
  | configure (api_key : String)
  | generate_content
deriving DecidableEq

/-- Whitespace for Python's `str.strip()` (the ASCII cases; exotic Unicode
whitespace is outside the model). -/
def isPyWhitespace (c : Char) : Bool :=
  c = ' ' || c = '\t' || c = '\n' || c = '\r' || c = Char.ofNat 11 || c = Char.ofNat 12

/-- Python `s.strip()`: drop leading and trailing whitespace. -/
def pyStrip (s : String) : String :=
  ⟨((s.toList.dropWhile isPyWhitespace).reverse.dropWhile isPyWhitespace).reverse⟩

/-- `str(e)`-style message of the `AttributeError` raised by
`parsed_response.get(...)` when the decoded JSON value is not an object
(Python `dict`). -/
def pyTypeName : Json → String
  | .null => "NoneType"
  | .bool _ => "bool"
  | .num _ => "int"
  | .str _ => "str"
  | .arr _ => "list"
  | .obj _ => "dict"

/-- Message of the `.get` `AttributeError` on a non-dict value. -/
def attrGetErr (v : Json) : String :=
  "\x27" ++ pyTypeName v ++ "\x27 object has no attribute \x27get\x27"

/-- `ai_processor.analyze_post`, with the external calls it performed.
Follows the source line by line: empty credential short-circuit, `configure`,
empty-content short-circuit, model call, JSON extraction, key projection with
`dict.get`; each `except` branch returns its marker record. The
missing-expected-keys check (lines 89–94) only logs a warning and changes
nothing. -/
def analyze_post_run (post_content api_key : String) (g : Gemini) :
    AnalysisResult × List ExtCall :=
  if api_key = "" then
    (errResult "Błąd konfiguracji" "API key is missing", [])
  else
    match g.configure_error with
    | some e =>
      (errResult "Błąd konfiguracji API" ("Error configuring Gemini API: " ++ e),
       [.configure api_key])
    | none =>
      if post_content = "" ∨ pyStrip post_content = "" then
        (⟨.null, .null, .null, some "Empty post content"⟩, [.configure api_key])
      else
        match g.behavior with
        | .raises e =>
          (errResult "Błąd API" ("API Error: " ++ e),
           [.configure api_key, .generate_content])
        | .returns t =>
          let result :=
            match extractJson t with
            | none => errResult "Błąd parsowania JSON" "Invalid JSON response"
            | some (Json.obj members) =>
              ⟨dictGetD members "zadanie_konkursowe",
               dictGetD members "miejsce_zgloszenia",
               dictGetD members "termin_zakonczenia", none⟩
            | some v => errResult "Błąd API" ("API Error: " ++ attrGetErr v)
          (result, [.configure api_key, .generate_content])

/-- The record `analyze_post` returns. -/
def analyze_post (post_content api_key : String) (g : Gemini) : AnalysisResult :=
  (analyze_post_run post_content api_key g).1

/-! ## `scraper.find_contests`

The browser session is modelled by a `Browser` behaviour value: whether the
constructor raises, whether each `go_to` / `scroll_down` /
`scrape_elements_by_css_selector` call raises (`some msg` / `.error msg`
models the raised exception), and which post elements the scrape returns.
A run records the browser/system effects that completed (`BEvent`), every
logger call (`LogEntry`), the session-level exception absorbed by the outer
`except` if any, and the returned result list.  A call that raises
contributes no effect event. -/

/-- A link element returned by `find_element_by_css_selector('a')`:
`get_attribute('href')` may raise, return Python `None`, or return a
string. -/
structure LinkElem where
  get_href : Except String (Option String)

/-- A scraped post element: reading `.text` may raise, and the `a`-element
query may raise or find nothing (Python `None`). -/
structure PostElement where
  text : Except String String
  find_a : Except String (Option LinkElem)

/-- Behaviour of the browser session for one `find_contests` call.
`scroll_error i` is the outcome of the `i`-th (0-based) `scroll_down`
call. -/
structure Browser where
  init_error : Option String
  go_to : String → Option String
  scroll_error : Nat → Option String
  scrape : Except String (List PostElement)

/-- Browser/system effects in the order they completed. -/
inductive BEvent where
  | go_to (url : String)
  | sleep (seconds : Nat)
  | scroll_down
  | scrape (selector : String)
deriving DecidableEq

/-- Logger severity. -/
inductive LogLevel where
  | info
  | debug
  | warning
  | error
deriving DecidableEq

/-- One logger call. -/
structure LogEntry where
  level : LogLevel
  msg : String
deriving DecidableEq

/-- `https://facebook.com`, the fixed login page. -/
def fbUrl : String := "https://facebook.com"

/-- The search-results URL built from the phrase. -/
def searchUrl (phrase : String) : String :=
  "https://www.facebook.com/search/posts/?q=" ++ phrase

/-- The CSS selector used for post elements: `div[role='article']`. -/
def articleSelector : String := "div[role=\x27article\x27]"

/-- Python `s[:100]`. -/
def truncate100 (s : String) : String :=
  ⟨s.toList.take 100⟩

/-- Warning logged when a per-element exception is absorbed; `content` is the
value of `post_content` at that point (still `""` when `.text` itself
raised). -/
def warnErrLog (i : Nat) (msg content : String) : LogEntry :=
  ⟨.warning, "Error processing post element " ++ toString (i + 1) ++ ": " ++ msg
    ++ ". Post content: \x27" ++ truncate100 content ++ "...\x27. Skipping this post."⟩

/-- Warning logged when an element has no text content. -/
def warnNoTextLog (i : Nat) : LogEntry :=
  ⟨.warning, "Post element " ++ toString (i + 1) ++ " has no text content. Skipping."⟩

/-- Warning logged when no link could be extracted for an element. -/
def warnNoLinkLog (i : Nat) (content : String) : LogEntry :=
  ⟨.warning, "Could not extract link for post " ++ toString (i + 1)
    ++ ". Post content: \x27" ++ truncate100 content ++ "...\x27"⟩

/-- Debug logged for a successfully extracted element. -/
def debugOkLog (i : Nat) : LogEntry :=
  ⟨.debug, "Successfully extracted content and link for post " ++ toString (i + 1) ++ "."⟩

/-- The per-element body of the scraping loop (source lines 51–81), for the
element at 0-based position `i`: one log entry (a warning when the element is
skipped, a debug entry when it contributes) and the element's `{content,
link}` contribution if any.  Python truthiness makes both an empty text and an
empty `href` falsy, and `find_element_by_css_selector` returning `None` or
`get_attribute` returning `None` leave `post_link` as `None`; any exception in
the body is absorbed by the per-element `except`. -/
def processElement (i : Nat) (e : PostElement) : LogEntry × Option (String × String) :=
  match e.text with
  | .error msg => (warnErrLog i msg "", none)
  | .ok t =>
    if t = "" then (warnNoTextLog i, none)
    else
      match e.find_a with
      | .error msg => (warnErrLog i msg t, none)
      | .ok none => (warnNoLinkLog i t, none)
      | .ok (some le) =>
        match le.get_href with
        | .error msg => (warnErrLog i msg t, none)
        | .ok none => (warnNoLinkLog i t, none)
        | .ok (some href) =>
          if href = "" then (warnNoLinkLog i t, none)
          else (debugOkLog i, some (t, href))

/-- The `{content, link}` pair an element contributes, `none` when it is
skipped (the position in the list only affects log text). -/
def elemResult (e : PostElement) : Option (String × String) :=
  (processElement 0 e).2

/-- The scraping loop over the post elements starting at position `i`:
per-element logs in order and the collected results. -/
def processFrom (i : Nat) : List PostElement → List LogEntry × List (String × String)
  | [] => ([], [])
  | e :: rest =>
    let this := processElement i e
    let further := processFrom (i + 1) rest
    (this.1 :: further.1, this.2.toList ++ further.2)

/-- Debug entry logged after each completed scroll. -/
def scrollDebugLog (i total : Nat) : LogEntry :=
  ⟨.debug, "Scroll attempt " ++ toString (i + 1) ++ "/" ++ toString total⟩

/-- What the scroll loop produced before finishing or raising. -/
structure ScrollPhase where
  events : List BEvent
  logs : List LogEntry
  err : Option String

/-- The scroll loop (source lines 38–41): `k` remaining iterations starting at
call index `i`; each completed iteration scrolls, logs a debug entry and
sleeps 2 seconds; a raising `scroll_down` aborts the loop. -/
def scrollLoop (b : Browser) (total : Nat) : Nat → Nat → ScrollPhase
  | _, 0 => ⟨[], [], none⟩
  | i, k + 1 =>
    match b.scroll_error i with
    | some e => ⟨[], [], some e⟩
    | none =>
      let rest := scrollLoop b total (i + 1) k
      ⟨.scroll_down :: .sleep 2 :: rest.events, scrollDebugLog i total :: rest.logs, rest.err⟩

/-- Error entry logged by the outer `except` of `find_contests`. -/
def sessionErrLog (e : String) : LogEntry :=
  ⟨.error, "An error occurred during the scraping process in find_contests: " ++ e⟩

/-- Info entries of `find_contests`, in source order. -/
def initLog (phrase : String) (scrolls : Nat) : LogEntry :=
  ⟨.info, "Initializing browser for scraping with search: \x27" ++ phrase
    ++ "\x27, scrolls: " ++ toString scrolls⟩

/-- Info entry before navigating to the login page. -/
def navFbLog : LogEntry := ⟨.info, "Navigating to Facebook..."⟩

/-- Info entry before the manual-login pause. -/
def pauseLog : LogEntry := ⟨.info, "Pausing for 20 seconds for potential manual login..."⟩

/-- Info entry before navigating to the search results. -/
def navSearchLog (phrase : String) : LogEntry :=
  ⟨.info, "Navigating to search URL: " ++ searchUrl phrase⟩

/-- Info entry before the scroll loop. -/
def scrollingLog (n : Nat) : LogEntry :=
  ⟨.info, "Scrolling down " ++ toString n ++ " times..."⟩

/-- Info entry before the element scrape. -/
def scrapeSelLog : LogEntry :=
  ⟨.info, "Scraping post elements with selector: " ++ articleSelector⟩

/-- Info entry after the element scrape. -/
def foundLog (n : Nat) : LogEntry :=
  ⟨.info, "Found " ++ toString n ++ " potential post elements."⟩

/-- Info entry of the `finally` block when `browse` was constructed. -/
def closeLog : LogEntry := ⟨.info, "Attempting to close the browser."⟩

/-- Final info entry of the `finally` block. -/
def finishedLog (n : Nat) : LogEntry :=
  ⟨.info, "Scraping finished. Returning " ++ toString n ++ " results."⟩

/-- One `find_contests` run: completed effects, logger calls, the
session-level exception absorbed by the outer `except` (if any) and the
returned list. -/
structure ScrapeRun where
  trace : List BEvent
  logs : List LogEntry
  session_error : Option String
  results : List (String × String)

/-- `scraper.find_contests`, as a run record.  Follows the source: construct
the browser, navigate to `https://facebook.com`, sleep 20 s for manual login,
navigate to the search URL, scroll `scroll_count` times (2 s pause each),
scrape `div[role='article']` once and process each element; any exception
outside the per-element bodies lands in the outer `except` (error log, the
`results` collected so far — necessarily `[]`, as no element has been
processed yet); the `finally` block logs the close attempt (when the
constructor succeeded) and the final count.  The function is total: no
exception propagates. -/
def find_contests_run (search_phrase : String) (scroll_count : Nat) (b : Browser) :
    ScrapeRun :=
  match b.init_error with
  | some e =>
    { trace := [],
      logs := [initLog search_phrase scroll_count, sessionErrLog e, finishedLog 0],
      session_error := some e, results := [] }
  | none =>
    match b.go_to fbUrl with
    | some e =>
      { trace := [],
        logs := [initLog search_phrase scroll_count, navFbLog, sessionErrLog e,
                 closeLog, finishedLog 0],
        session_error := some e, results := [] }
    | none =>
      match b.go_to (searchUrl search_phrase) with
      | some e =>
        { trace := [.go_to fbUrl, .sleep 20],
          logs := [initLog search_phrase scroll_count, navFbLog, pauseLog,
                   navSearchLog search_phrase, sessionErrLog e, closeLog, finishedLog 0],
          session_error := some e, results := [] }
      | none =>
        let sp := scrollLoop b scroll_count 0 scroll_count
        let baseTrace := [.go_to fbUrl, .sleep 20, .go_to (searchUrl search_phrase)]
          ++ sp.events
        let baseLogs := [initLog search_phrase scroll_count, navFbLog, pauseLog,
                         navSearchLog search_phrase, scrollingLog scroll_count] ++ sp.logs
        match sp.err with
        | some e =>
          { trace := baseTrace,
            logs := baseLogs ++ [sessionErrLog e, closeLog, finishedLog 0],
            session_error := some e, results := [] }
        | none =>
          match b.scrape with
          | .error e =>
            { trace := baseTrace,
              logs := baseLogs ++ [scrapeSelLog, sessionErrLog e, closeLog, finishedLog 0],
              session_error := some e, results := [] }
          | .ok elems =>
            let pe := processFrom 0 elems
            { trace := baseTrace ++ [.scrape articleSelector],
              logs := baseLogs ++ [scrapeSelLog, foundLog elems.length] ++ pe.1
                ++ [closeLog, finishedLog pe.2.length],
              session_error := none, results := pe.2 }

/-- The list `find_contests` returns. -/
def find_contests (search_phrase : String) (scroll_count : Nat) (b : Browser) :
    List (String × String) :=
  (find_contests_run search_phrase scroll_count b).results

/-! ## `app.py`: the result table and the save-button handler

Only the parts the claims touch are modelled: the visible columns the result
table is created with (source lines 103–110) and the save-button handler
(source lines 142–167).  In the source, the actual export call
`df_to_save.to_excel(output_path, index=False)` is commented out: the handler
creates the output directory if needed, sleeps, and reports a placeholder
success message, writing nothing. -/

/-- The visible columns `st.session_state.results_df` is initialized with. -/
def results_df_columns : List String :=
  ["Link", "Treść Posta", "Zadanie Konkursowe", "Miejsce Zgłoszenia", "Termin Zakończenia"]

/-- What one execution of the save-button handler body did. -/
structure SaveOutcome where
  output_path : String
  made_output_dir : Bool
  written : Option (List String × List (List String))
  message : String
  save_button_clicked_after : Bool

/-- The save-button handler body (run when the button was clicked and the
table is non-empty): `edited_table` is the data-editor state it reads
(`st.session_state.data_editor_widget`), `dir_exists` whether `data/` already
exists.  `written` would carry the exported (columns, rows) — the export line
is commented out in the source, so nothing is ever written. -/
def save_button_handler (edited_table : List (List String)) (dir_exists : Bool) :
    SaveOutcome :=
  { output_path := "data/konkursy_wyniki.xlsx",
    made_output_dir := !dir_exists,
    written := none,
    message := "Placeholder: Zmiany zostałyby zapisane do data/konkursy_wyniki.xlsx",
    save_button_clicked_after := false }

/-- The export-then-reload property claimed of the save operation, stated
from the spec's words: saving a non-empty table writes a spreadsheet whose
reload yields all visible columns.  (Reloading is modelled as recovering
exactly what was written.) -/
def exportReloadPreservesColumns (table : List (List String)) : Prop :=
  table ≠ [] →
    ∃ rows, (save_button_handler table true).written = some (results_df_columns, rows)

/-! ## Helper lemmas -/

/-- The five error tags of the extractor's error taxonomy:
MissingCredential, ConfigurationError, EmptyInput, MalformedResponse,
UpstreamError. -/
def errTagOk (e : String) : Prop :=
  e = "API key is missing" ∨
  (∃ s, e = "Error configuring Gemini API: " ++ s) ∨
  e = "Empty post content" ∨
  e = "Invalid JSON response" ∨
  (∃ s, e = "API Error: " ++ s)

/-- On the happy path up to the model reply (credential present, `configure`
succeeded, non-blank post, a textual reply `t`), `analyze_post` is the
JSON-extraction-and-projection step applied to `t`. -/
theorem analyze_post_returns_eq (p k t : String) (g : Gemini)
    (hk : ¬k = "") (hc : g.configure_error = none)
    (hp : ¬(p = "" ∨ pyStrip p = "")) (hb : g.behavior = .returns t) :
    analyze_post p k g =
      match extractJson t with
      | none => errResult "Błąd parsowania JSON" "Invalid JSON response"
      | some (Json.obj members) =>
        ⟨dictGetD members "zadanie_konkursowe",
         dictGetD members "miejsce_zgloszenia",
         dictGetD members "termin_zakonczenia", none⟩
      | some v => errResult "Błąd API" ("API Error: " ++ attrGetErr v) := by
  obtain ⟨ce, beh⟩ := g
  cases hc
  cases hb
  unfold analyze_post analyze_post_run
  rw [if_neg hk]
  rw [if_neg hp]

/-! ## Claim theorems -/

/-- Claim C9 (confirmed): the missing-credential check precedes every other
check: for every post text (including empty text) and every service
behaviour, an empty `api_key` yields the missing-credential record (all three
fields `Błąd konfiguracji`, error tag `API key is missing`) and the run
performs no external call — it neither configures nor invokes the model. -/
theorem analyze_post_missing_credential_first (post_content : String) (g : Gemini) :
    analyze_post_run post_content "" g =
      (errResult "Błąd konfiguracji" "API key is missing", []) := rfl

/-- Claim C7 (confirmed): `analyze_post` is deterministic in its post text,
its credential, and the service behaviour (which carries the mocked model
response): identical inputs give identical records. -/
theorem analyze_post_deterministic (p₁ p₂ k₁ k₂ : String) (g₁ g₂ : Gemini)
    (hp : p₁ = p₂) (hk : k₁ = k₂) (hg : g₁ = g₂) :
    analyze_post p₁ k₁ g₁ = analyze_post p₂ k₂ g₂ := by
  rw [hp, hk, hg]

/-- Witness for C7 at concrete inputs. -/
theorem analyze_post_deterministic_witness :
    analyze_post "Konkurs! Wygraj nagrody." "klucz"
        ⟨none, .returns "\x7b\"zadanie_konkursowe\": null\x7d"⟩ =
      analyze_post "Konkurs! Wygraj nagrody." "klucz"
        ⟨none, .returns "\x7b\"zadanie_konkursowe\": null\x7d"⟩ :=
  analyze_post_deterministic _ _ _ _ _ _ rfl rfl rfl

/-- A syntactically well-formed model reply whose task value is a JSON
number: `{"zadanie_konkursowe": 42, "miejsce_zgloszenia": null,
"termin_zakonczenia": null}`. -/
def numReply : String :=
  "\x7b\"zadanie_konkursowe\": 42, \"miejsce_zgloszenia\": null, \"termin_zakonczenia\": null\x7d"

/-- Claim C1 (counterexample): when the model reply is a well-formed JSON
object whose task value is the number `42`, `analyze_post` returns the record
with no error tag and with a field that is neither a string nor null, so the
"string-or-null values" typing of the claim fails; the rest of the claim (the
fixed three-field shape and the five-tag taxonomy) is proved below. -/
theorem analyze_post_nonstring_field_cex :
    (analyze_post "post" "klucz" ⟨none, .returns numReply⟩).error = none ∧
    (analyze_post "post" "klucz" ⟨none, .returns numReply⟩).zadanie_konkursowe
      = Json.num 42 ∧
    Json.num 42 ≠ Json.null ∧ ∀ s, Json.num 42 ≠ Json.str s := by
  have h : analyze_post "post" "klucz" ⟨none, .returns numReply⟩ =
      ⟨Json.num 42, Json.null, Json.null, none⟩ := rfl
  exact ⟨by rw [h], by rw [h], by simp, fun s => by simp⟩

/-- Claim C1 (amended): for every post text, credential and service
behaviour, `analyze_post` returns a record of exactly the three contest
fields carrying the extracted JSON values (string-or-null whenever the model
reply conforms to the requested schema), either with no error entry or with a
tagged error in the five categories MissingCredential, ConfigurationError,
EmptyInput, MalformedResponse, UpstreamError; it is total, so no exception
escapes. -/
theorem analyze_post_shape_and_taxonomy (p k : String) (g : Gemini) :
    (analyze_post p k g).error = none ∨
      ∃ e, (analyze_post p k g).error = some e ∧ errTagOk e := by
  obtain ⟨ce, beh⟩ := g
  unfold analyze_post analyze_post_run
  by_cases hk : k = ""
  · rw [if_pos hk]
    exact Or.inr ⟨_, rfl, Or.inl rfl⟩
  · rw [if_neg hk]
    cases ce with
    | some e => exact Or.inr ⟨_, rfl, Or.inr (Or.inl ⟨e, rfl⟩)⟩
    | none =>
      by_cases hp : p = "" ∨ pyStrip p = ""
      · rw [if_pos hp]
        exact Or.inr ⟨_, rfl, Or.inr (Or.inr (Or.inl rfl))⟩
      · rw [if_neg hp]
        cases beh with
        | raises e =>
          exact Or.inr ⟨_, rfl, Or.inr (Or.inr (Or.inr (Or.inr ⟨e, rfl⟩)))⟩
        | returns t =>
          cases hx : extractJson t with
          | none =>
            simp only [hx]
            exact Or.inr ⟨_, rfl, Or.inr (Or.inr (Or.inr (Or.inl rfl)))⟩
          | some v =>
            simp only [hx]
            cases v with
            | obj members => exact Or.inl rfl
            | null =>
              exact Or.inr ⟨_, rfl, Or.inr (Or.inr (Or.inr (Or.inr ⟨_, rfl⟩)))⟩
            | bool b =>
              exact Or.inr ⟨_, rfl, Or.inr (Or.inr (Or.inr (Or.inr ⟨_, rfl⟩)))⟩
            | num n =>
              exact Or.inr ⟨_, rfl, Or.inr (Or.inr (Or.inr (Or.inr ⟨_, rfl⟩)))⟩
            | str s =>
              exact Or.inr ⟨_, rfl, Or.inr (Or.inr (Or.inr (Or.inr ⟨_, rfl⟩)))⟩
            | arr elems =>
              exact Or.inr ⟨_, rfl, Or.inr (Or.inr (Or.inr (Or.inr ⟨_, rfl⟩)))⟩

/-- Claim C2 (confirmed): when the model reply contains a `{` at position `i`
and a later `}` at position `j`, `analyze_post` decodes the substring
`t[i..j]` inclusive; when that substring is a valid JSON object carrying the
three expected keys, the surrounding non-JSON text does not prevent
extraction, and the record equals the values of those keys. -/
theorem analyze_post_brace_extraction (p k t : String) (g : Gemini)
    (members : List (String × Json)) (i j : Nat) (v₁ v₂ v₃ : Json)
    (hk : ¬k = "") (hc : g.configure_error = none)
    (hp : ¬(p = "" ∨ pyStrip p = "")) (hb : g.behavior = .returns t)
    (hi : charIndex t lbrace = some i) (hj : charRindex t rbrace = some j)
    (hparse : json_loads (pySlice t i (j + 1)) = some (Json.obj members))
    (h1 : dictGet members "zadanie_konkursowe" = some v₁)
    (h2 : dictGet members "miejsce_zgloszenia" = some v₂)
    (h3 : dictGet members "termin_zakonczenia" = some v₃) :
    analyze_post p k g = ⟨v₁, v₂, v₃, none⟩ := by
  have hx : extractJson t = some (Json.obj members) := by
    unfold extractJson
    simp only [hi, hj, hparse]
  rw [analyze_post_returns_eq p k t g hk hc hp hb, hx]
  simp [dictGetD, h1, h2, h3]

/-- A model reply wrapping the JSON object in a markdown code fence. -/
def fencedReply : String :=
  "```json\n\x7b\"zadanie_konkursowe\": \"Polub post\", \"miejsce_zgloszenia\": \"W komentarzu\", \"termin_zakonczenia\": \"2024-12-31\"\x7d\n```"

/-- Witness for C2: the markdown fence around the object does not prevent
extraction; the first `{` is at position 8 and the last `}` five characters
from the end. -/
theorem analyze_post_brace_extraction_witness :
    analyze_post "Wygraj nagrody!" "klucz" ⟨none, .returns fencedReply⟩ =
      ⟨Json.str "Polub post", Json.str "W komentarzu", Json.str "2024-12-31", none⟩ :=
  analyze_post_brace_extraction "Wygraj nagrody!" "klucz" fencedReply
    ⟨none, .returns fencedReply⟩
    [("zadanie_konkursowe", Json.str "Polub post"),
     ("miejsce_zgloszenia", Json.str "W komentarzu"),
     ("termin_zakonczenia", Json.str "2024-12-31")]
    8 (fencedReply.length - 5)
    (Json.str "Polub post") (Json.str "W komentarzu") (Json.str "2024-12-31")
    (by decide) rfl (by decide) rfl rfl rfl rfl rfl rfl rfl

/-- A model reply decoding to a JSON object that omits two of the three
expected keys. -/
def missingKeyReply : String :=
  "\x7b\"zadanie_konkursowe\": \"Zrób zdjęcie\"\x7d"

/-- Claim C5 (counterexample): a reply decoding to a JSON object that omits
`miejsce_zgloszenia` and `termin_zakonczenia` yields a record with no error
entry at all — the omitted fields are silently `null` — rather than a record
carrying a defined tagged error. -/
theorem analyze_post_missing_keys_cex :
    json_loads missingKeyReply =
      some (Json.obj [("zadanie_konkursowe", Json.str "Zrób zdjęcie")]) ∧
    analyze_post "post" "klucz" ⟨none, .returns missingKeyReply⟩ =
      ⟨Json.str "Zrób zdjęcie", Json.null, Json.null, none⟩ ∧
    (analyze_post "post" "klucz" ⟨none, .returns missingKeyReply⟩).error = none :=
  ⟨rfl, rfl, rfl⟩

/-- Claim C5 (amended): when the model reply decodes to a JSON object, the
record carries `dict.get`'s value for each expected key — Python `None`
(`Json.null`) for an omitted key — and no error tag: a missing key is not a
failure mode of the taxonomy, it only produces a warning log. -/
theorem analyze_post_object_reply_no_error_tag (p k t : String) (g : Gemini)
    (members : List (String × Json))
    (hk : ¬k = "") (hc : g.configure_error = none)
    (hp : ¬(p = "" ∨ pyStrip p = "")) (hb : g.behavior = .returns t)
    (hx : extractJson t = some (Json.obj members)) :
    analyze_post p k g =
      ⟨dictGetD members "zadanie_konkursowe", dictGetD members "miejsce_zgloszenia",
       dictGetD members "termin_zakonczenia", none⟩ := by
  rw [analyze_post_returns_eq p k t g hk hc hp hb, hx]

/-- Witness for the amended C5 at the two-keys-omitted reply. -/
theorem analyze_post_object_reply_no_error_tag_witness :
    analyze_post "Konkurs foto." "klucz" ⟨none, .returns missingKeyReply⟩ =
      ⟨Json.str "Zrób zdjęcie", Json.null, Json.null, none⟩ :=
  (analyze_post_object_reply_no_error_tag "Konkurs foto." "klucz" missingKeyReply
    ⟨none, .returns missingKeyReply⟩
    [("zadanie_konkursowe", Json.str "Zrób zdjęcie")]
    (by decide) rfl (by decide) rfl rfl).trans rfl

/-- A reply that is valid JSON whose top-level value is an array, but which
contains an embedded object: the brace heuristic extracts and decodes the
embedded object instead. -/
def arrayObjReply : String := "[\"x\", \x7b\"a\": 1\x7d]"

/-- Claim C10 (counterexample): `arrayObjReply` decodes, as a whole, to a
JSON array — not an object — yet `analyze_post` does not return the
UpstreamError record: the first-`{`-to-last-`}` heuristic extracts the
embedded object `{"a": 1}`, which decodes, so the call returns the ordinary
record (all fields `null`, no error tag). -/
theorem analyze_post_nondict_cex :
    json_loads arrayObjReply =
      some (Json.arr [Json.str "x", Json.obj [("a", Json.num 1)]]) ∧
    analyze_post "post" "klucz" ⟨none, .returns arrayObjReply⟩ =
      ⟨Json.null, Json.null, Json.null, none⟩ ∧
    (analyze_post "post" "klucz" ⟨none, .returns arrayObjReply⟩).error = none :=
  ⟨rfl, rfl, rfl⟩

/-- Claim C10 (amended): when the value the parsing step actually ends up
with — the decoded first-`{`-to-last-`}` substring when that decodes, the
decoded whole text otherwise — is not a JSON object, `analyze_post` returns
the UpstreamError record (`Błąd API` fields, `API Error: ...` tag naming the
`.get` `AttributeError` on the non-dict value), not the MalformedResponse
record `Błąd parsowania JSON`. -/
theorem analyze_post_nondict_upstream_error (p k t : String) (g : Gemini) (v : Json)
    (hk : ¬k = "") (hc : g.configure_error = none)
    (hp : ¬(p = "" ∨ pyStrip p = "")) (hb : g.behavior = .returns t)
    (hx : extractJson t = some v) (hv : ∀ members, v ≠ Json.obj members) :
    analyze_post p k g = errResult "Błąd API" ("API Error: " ++ attrGetErr v) := by
  rw [analyze_post_returns_eq p k t g hk hc hp hb, hx]
  cases v with
  | obj members => exact absurd rfl (hv members)
  | null => rfl
  | bool b => rfl
  | num n => rfl
  | str s => rfl
  | arr elems => rfl

/-- Witness for the amended C10 at the brace-free array reply `[1, 2]`. -/
theorem analyze_post_nondict_upstream_error_witness :
    analyze_post "Konkurs!" "klucz" ⟨none, .returns "[1, 2]"⟩ =
      errResult "Błąd API"
        "API Error: \x27list\x27 object has no attribute \x27get\x27" :=
  (analyze_post_nondict_upstream_error "Konkurs!" "klucz" "[1, 2]"
    ⟨none, .returns "[1, 2]"⟩ (Json.arr [Json.num 1, Json.num 2])
    (by decide) rfl (by decide) rfl rfl (by simp)).trans rfl

/-! ## Scraper lemmas -/

/-- The element's contribution does not depend on its position (only the log
text does). -/
theorem processElement_snd (i : Nat) (e : PostElement) :
    (processElement i e).2 = elemResult e := by
  rcases e with ⟨t, fa⟩
  rcases t with msg | t
  · rfl
  · by_cases ht : t = ""
    · simp [processElement, elemResult, ht]
    · rcases fa with msg | le
      · simp [processElement, elemResult, ht]
      · rcases le with _ | le
        · simp [processElement, elemResult, ht]
        · rcases le with ⟨gh⟩
          rcases gh with msg | ho
          · simp [processElement, elemResult, ht]
          · rcases ho with _ | href
            · simp [processElement, elemResult, ht]
            · by_cases hh : href = "" <;>
                simp [processElement, elemResult, ht, hh]

/-- The loop collects exactly the contributions of the good elements, in
order. -/
theorem processFrom_snd (i : Nat) (es : List PostElement) :
    (processFrom i es).2 = es.filterMap elemResult := by
  induction es generalizing i with
  | nil => rfl
  | cons e rest ih =>
    unfold processFrom
    rw [List.filterMap_cons]
    cases h : elemResult e with
    | none => simp [processElement_snd, h, ih]
    | some r => simp [processElement_snd, h, ih]

/-- A skipped element's log entry is a warning. -/
theorem processElement_skip_warning (i : Nat) (e : PostElement)
    (h : elemResult e = none) : (processElement i e).1.level = .warning := by
  rcases e with ⟨t, fa⟩
  rcases t with msg | t
  · rfl
  · by_cases ht : t = ""
    · simp [processElement, ht, warnNoTextLog]
    · rcases fa with msg | le
      · simp [processElement, ht, warnErrLog]
      · rcases le with _ | le
        · simp [processElement, ht, warnNoLinkLog]
        · rcases le with ⟨gh⟩
          rcases gh with msg | ho
          · simp [processElement, ht, warnErrLog]
          · rcases ho with _ | href
            · simp [processElement, ht, warnNoLinkLog]
            · by_cases hh : href = ""
              · simp [processElement, ht, hh, warnNoLinkLog]
              · exact absurd h (by simp [elemResult, processElement, ht, hh])

/-- Each element's log entry appears among the loop's logs. -/
theorem processFrom_log_mem (i : Nat) (es : List PostElement) (j : Nat)
    (hj : j < es.length) :
    (processElement (i + j) (es.get ⟨j, hj⟩)).1 ∈ (processFrom i es).1 := by
  induction es generalizing i j with
  | nil => exact absurd hj (Nat.not_lt_zero j)
  | cons e rest ih =>
    cases j with
    | zero => simp [processFrom]
    | succ j' =>
      have hmem := ih (i + 1) j' (Nat.lt_of_succ_lt_succ hj)
      have harith : i + (j' + 1) = (i + 1) + j' := by omega
      simp only [List.get_cons_succ, harith]
      unfold processFrom
      exact List.mem_cons_of_mem _ hmem

/-- A never-raising `scroll_down` makes the scroll loop complete: no error,
and `k` scroll-then-2-second-pause effect pairs. -/
theorem scrollLoop_ok (b : Browser) (total : Nat)
    (h : ∀ i, b.scroll_error i = none) (i k : Nat) :
    (scrollLoop b total i k).err = none ∧
    (scrollLoop b total i k).events =
      List.flatten (List.replicate k [.scroll_down, .sleep 2]) := by
  induction k generalizing i with
  | zero => exact ⟨rfl, rfl⟩
  | succ k ih =>
    unfold scrollLoop
    rw [h i]
    obtain ⟨h1, h2⟩ := ih (i + 1)
    exact ⟨h1, by simp [h2, List.replicate_succ]⟩

/-- Shape of a fully successful `find_contests` run. -/
theorem find_contests_run_ok (phrase : String) (n : Nat) (b : Browser)
    (elems : List PostElement)
    (h1 : b.init_error = none) (h2 : b.go_to fbUrl = none)
    (h3 : b.go_to (searchUrl phrase) = none)
    (h4 : ∀ i, b.scroll_error i = none)
    (h5 : b.scrape = .ok elems) :
    find_contests_run phrase n b =
      { trace := [.go_to fbUrl, .sleep 20, .go_to (searchUrl phrase)]
          ++ List.flatten (List.replicate n [.scroll_down, .sleep 2])
          ++ [.scrape articleSelector],
        logs := [initLog phrase n, navFbLog, pauseLog, navSearchLog phrase,
                 scrollingLog n] ++ (scrollLoop b n 0 n).logs
          ++ [scrapeSelLog, foundLog elems.length] ++ (processFrom 0 elems).1
          ++ [closeLog, finishedLog (elems.filterMap elemResult).length],
        session_error := none,
        results := elems.filterMap elemResult } := by
  obtain ⟨hserr, hsev⟩ := scrollLoop_ok b n h4 0 n
  unfold find_contests_run
  simp only [h1, h2, h3, h5, hserr, hsev, processFrom_snd]

/-! ## Scraper claim theorems -/

/-- Claim C3 (confirmed): whenever a session-level browser operation raises
(constructor, either navigation, a scroll, or the element query), the outer
`except` absorbs it: `find_contests` returns the empty list and logs the
error; the embedded function is total, so no exception propagates. -/
theorem find_contests_session_failure (phrase : String) (n : Nat) (b : Browser)
    (e : String) (h : (find_contests_run phrase n b).session_error = some e) :
    (find_contests_run phrase n b).results = [] ∧
      sessionErrLog e ∈ (find_contests_run phrase n b).logs := by
  unfold find_contests_run at h ⊢
  cases h1 : b.init_error with
  | some e1 =>
    simp only [h1] at h ⊢
    obtain rfl : e1 = e := by simpa using h
    exact ⟨by simp, by simp⟩
  | none =>
    simp only [h1] at h ⊢
    cases h2 : b.go_to fbUrl with
    | some e1 =>
      simp only [h2] at h ⊢
      obtain rfl : e1 = e := by simpa using h
      exact ⟨by simp, by simp⟩
    | none =>
      simp only [h2] at h ⊢
      cases h3 : b.go_to (searchUrl phrase) with
      | some e1 =>
        simp only [h3] at h ⊢
        obtain rfl : e1 = e := by simpa using h
        exact ⟨by simp, by simp⟩
      | none =>
        simp only [h3] at h ⊢
        cases h4 : (scrollLoop b n 0 n).err with
        | some e1 =>
          simp only [h4] at h ⊢
          obtain rfl : e1 = e := by simpa using h
          exact ⟨by simp, by simp⟩
        | none =>
          simp only [h4] at h ⊢
          cases h5 : b.scrape with
          | error e1 =>
            simp only [h5] at h ⊢
            obtain rfl : e1 = e := by simpa using h
            exact ⟨by simp, by simp⟩
          | ok elems =>
            simp only [h5] at h
            exact absurd h (by simp)

/-- Witness for C3: a browser whose navigation raises `Network Error`. -/
theorem find_contests_session_failure_witness :
    (find_contests_run "konkurs" 1
        ⟨none, fun _ => some "Network Error", fun _ => none, .ok []⟩).results = [] ∧
    sessionErrLog "Network Error" ∈
      (find_contests_run "konkurs" 1
        ⟨none, fun _ => some "Network Error", fun _ => none, .ok []⟩).logs :=
  find_contests_session_failure "konkurs" 1
    ⟨none, fun _ => some "Network Error", fun _ => none, .ok []⟩ "Network Error" rfl

/-- Claim C4 (confirmed): in a run whose session-level operations succeed,
every good element contributes its `{content, link}` pair, in order, and
every bad element (empty text, missing or null link, or a raising access) is
skipped with a warning log — one bad element never aborts the batch. -/
theorem find_contests_skips_bad_elements (phrase : String) (n : Nat) (b : Browser)
    (elems : List PostElement)
    (h1 : b.init_error = none) (h2 : b.go_to fbUrl = none)
    (h3 : b.go_to (searchUrl phrase) = none)
    (h4 : ∀ i, b.scroll_error i = none)
    (h5 : b.scrape = .ok elems) :
    find_contests phrase n b = elems.filterMap elemResult ∧
    ∀ j (hj : j < elems.length), elemResult (elems.get ⟨j, hj⟩) = none →
      (processElement j (elems.get ⟨j, hj⟩)).1.level = .warning ∧
      (processElement j (elems.get ⟨j, hj⟩)).1 ∈ (find_contests_run phrase n b).logs := by
  have hrun := find_contests_run_ok phrase n b elems h1 h2 h3 h4 h5
  constructor
  · unfold find_contests
    rw [hrun]
  · intro j hj hnone
    refine ⟨processElement_skip_warning j _ hnone, ?_⟩
    rw [hrun]
    have hmem := processFrom_log_mem 0 elems j hj
    simp only [Nat.zero_add, List.get_eq_getElem] at hmem
    simp [List.mem_append, hmem]

/-- An element with text but no link element. -/
def noLinkElem : PostElement := ⟨.ok "Treść bez linku", .ok none⟩

/-- A fully extractable element. -/
def okElem : PostElement :=
  ⟨.ok "Treść posta", .ok (some ⟨.ok (some "https://fb.com/p/1")⟩)⟩

/-- A browser whose session operations all succeed and whose scrape returns
one bad and one good element. -/
def mixedBrowser : Browser :=
  ⟨none, fun _ => none, fun _ => none, .ok [noLinkElem, okElem]⟩

/-- Witness for C4: the bad element is skipped with a warning while the good
one still contributes. -/
theorem find_contests_skips_bad_elements_witness :
    find_contests "konkurs" 1 mixedBrowser =
      [("Treść posta", "https://fb.com/p/1")] ∧
    (processElement 0 noLinkElem).1.level = .warning ∧
    (processElement 0 noLinkElem).1 ∈ (find_contests_run "konkurs" 1 mixedBrowser).logs := by
  have h := find_contests_skips_bad_elements "konkurs" 1 mixedBrowser
    [noLinkElem, okElem] rfl rfl rfl (fun _ => rfl) rfl
  exact ⟨h.1.trans rfl, (h.2 0 (by decide) rfl).1, (h.2 0 (by decide) rfl).2⟩

/-- Claim C6 (confirmed): a successful run performs its effects in the fixed
order — navigate to `https://facebook.com`, pause 20 seconds for manual
login, navigate to the search URL, scroll exactly `n` times pausing 2 seconds
after each, then query the post elements exactly once with
`div[role='article']` — and extracts text and first link from the matched
elements. -/
theorem find_contests_effect_order (phrase : String) (n : Nat) (b : Browser)
    (elems : List PostElement)
    (h1 : b.init_error = none) (h2 : b.go_to fbUrl = none)
    (h3 : b.go_to (searchUrl phrase) = none)
    (h4 : ∀ i, b.scroll_error i = none)
    (h5 : b.scrape = .ok elems) :
    (find_contests_run phrase n b).trace =
      [.go_to "https://facebook.com", .sleep 20,
       .go_to ("https://www.facebook.com/search/posts/?q=" ++ phrase)]
        ++ List.flatten (List.replicate n [.scroll_down, .sleep 2])
        ++ [.scrape "div[role=\x27article\x27]"] ∧
    (find_contests_run phrase n b).results = elems.filterMap elemResult := by
  rw [find_contests_run_ok phrase n b elems h1 h2 h3 h4 h5]
  exact ⟨rfl, rfl⟩

/-- Witness for C6 with two scrolls and a raising-free browser. -/
theorem find_contests_effect_order_witness :
    (find_contests_run "konkurs" 2 ⟨none, fun _ => none, fun _ => none, .ok []⟩).trace =
      [.go_to "https://facebook.com", .sleep 20,
       .go_to ("https://www.facebook.com/search/posts/?q=" ++ "konkurs")]
        ++ List.flatten (List.replicate 2 [.scroll_down, .sleep 2])
        ++ [.scrape "div[role=\x27article\x27]"] ∧
    (find_contests_run "konkurs" 2 ⟨none, fun _ => none, fun _ => none, .ok []⟩).results =
      List.filterMap elemResult [] :=
  find_contests_effect_order "konkurs" 2
    ⟨none, fun _ => none, fun _ => none, .ok []⟩ [] rfl rfl rfl (fun _ => rfl) rfl

/-! ## App claim theorems -/

/-- Claim C8 (counterexample): exporting a concrete non-empty table through
the save handler writes nothing — `written` is `none`, because the
`to_excel` call is commented out in the source — so no reload can recover
the visible columns. -/
theorem save_export_reload_cex :
    ¬exportReloadPreservesColumns
      [["https://fb.com/p/1", "Treść", "Zadanie", "Miejsce", "Termin"]] := by
  intro h
  obtain ⟨rows, hw⟩ := h (by simp)
  exact Option.noConfusion hw

/-- Claim C8 (amended): the save handler is a placeholder: for every table
(non-empty included) it targets `data/konkursy_wyniki.xlsx`, creates the
output directory when missing, and writes no spreadsheet at all, so
export-then-reload of the result table cannot be performed; the in-memory
result table is nonetheless created with the five visible columns. -/
theorem save_button_handler_placeholder (table : List (List String)) (d : Bool) :
    (save_button_handler table d).written = none ∧
    (save_button_handler table d).output_path = "data/konkursy_wyniki.xlsx" ∧
    (save_button_handler table d).made_output_dir = !d ∧
    results_df_columns =
      ["Link", "Treść Posta", "Zadanie Konkursowe", "Miejsce Zgłoszenia",
       "Termin Zakończenia"] :=
  ⟨rfl, rfl, rfl, rfl⟩

end AsystentKonkursow
